import Mathlib

/-!
Verification development for the outfit recommendation engine
(`src/lib/recommendation-engine.ts`).

The engine is a pure, synchronous function of (catalog, request).  The two
impure ingredients of the source are modelled explicitly:

* randomness (`Math.random` in `selectBestItem`) becomes a `rand : Nat → Nat`
  oracle consumed through a counter; at each selector invocation the drawn
  index is clamped into range with `% length`, which covers exactly the
  behaviours `Math.floor(Math.random() * n)` can produce;
* wall-clock time (`performance.now()` differences) becomes an `elapsedMs : ℚ`
  parameter supplied by the environment.

Numeric values are rationals, so all JS double arithmetic of the source is
exact here (the source only adds, multiplies and divides small decimal
constants and catalog prices).
-/

namespace CultureCircle

set_option maxRecDepth 8000

/-- Closed enumeration of the 14 color families of `@/types/product`. -/
inductive ColorFamily where
  | black | white | gray | navy | brown | beige | cream
  | green | blue | red | pink | purple | orange | multi
  deriving DecidableEq, Fintype, Repr

/-- Closed enumeration of the 6 style types of `@/types/product`. -/
inductive StyleType where
  | streetwear | casual | athletic | formal | luxury | minimalist
  deriving DecidableEq, Fintype, Repr

/-- Product record (`@/types/product`).  `color_family`, `style` and `season`
are optional in the source (the engine substitutes defaults at use sites).
The UI-only descriptive fields (`title`, `featured_image`, `sub_category`,
`sector`) play no role in any engine computation and are omitted;
`category` is the field `getProductsByCategory` partitions on (§3, §6). -/
structure Product where
  sku_id : String
  brand_name : String
  category : String
  lowest_price : ℚ
  color_family : Option ColorFamily := none
  style : Option StyleType := none
  season : Option String := none
  tags : List String := []
  deriving DecidableEq, Repr

/-- `COLOR_HARMONY` matrix, transcribed entry by entry from the source. -/
def COLOR_HARMONY : ColorFamily → ColorFamily → ℚ
  | .black, b => match b with
    | .black => 0.7 | .white => 1.0 | .gray => 0.95 | .navy => 0.9 | .brown => 0.8 | .beige => 0.9 | .cream => 0.95
    | .green => 0.8 | .blue => 0.85 | .red => 0.75 | .pink => 0.7 | .purple => 0.7 | .orange => 0.7 | .multi => 0.6
  | .white, b => match b with
    | .black => 1.0 | .white => 0.6 | .gray => 0.9 | .navy => 0.95 | .brown => 0.85 | .beige => 0.9 | .cream => 0.85
    | .green => 0.85 | .blue => 0.9 | .red => 0.85 | .pink => 0.8 | .purple => 0.8 | .orange => 0.85 | .multi => 0.7
  | .gray, b => match b with
    | .black => 0.95 | .white => 0.9 | .gray => 0.7 | .navy => 0.9 | .brown => 0.75 | .beige => 0.85 | .cream => 0.9
    | .green => 0.8 | .blue => 0.85 | .red => 0.7 | .pink => 0.75 | .purple => 0.75 | .orange => 0.7 | .multi => 0.6
  | .navy, b => match b with
    | .black => 0.9 | .white => 0.95 | .gray => 0.9 | .navy => 0.7 | .brown => 0.9 | .beige => 0.95 | .cream => 0.95
    | .green => 0.75 | .blue => 0.8 | .red => 0.7 | .pink => 0.7 | .purple => 0.7 | .orange => 0.65 | .multi => 0.6
  | .brown, b => match b with
    | .black => 0.8 | .white => 0.85 | .gray => 0.75 | .navy => 0.9 | .brown => 0.7 | .beige => 0.95 | .cream => 0.95
    | .green => 0.85 | .blue => 0.75 | .red => 0.65 | .pink => 0.6 | .purple => 0.6 | .orange => 0.8 | .multi => 0.6
  | .beige, b => match b with
    | .black => 0.9 | .white => 0.9 | .gray => 0.85 | .navy => 0.95 | .brown => 0.95 | .beige => 0.7 | .cream => 0.8
    | .green => 0.85 | .blue => 0.85 | .red => 0.7 | .pink => 0.75 | .purple => 0.7 | .orange => 0.8 | .multi => 0.65
  | .cream, b => match b with
    | .black => 0.95 | .white => 0.85 | .gray => 0.9 | .navy => 0.95 | .brown => 0.95 | .beige => 0.8 | .cream => 0.65
    | .green => 0.85 | .blue => 0.85 | .red => 0.75 | .pink => 0.8 | .purple => 0.75 | .orange => 0.8 | .multi => 0.65
  | .green, b => match b with
    | .black => 0.8 | .white => 0.85 | .gray => 0.8 | .navy => 0.75 | .brown => 0.85 | .beige => 0.85 | .cream => 0.85
    | .green => 0.6 | .blue => 0.7 | .red => 0.5 | .pink => 0.55 | .purple => 0.6 | .orange => 0.6 | .multi => 0.55
  | .blue, b => match b with
    | .black => 0.85 | .white => 0.9 | .gray => 0.85 | .navy => 0.8 | .brown => 0.75 | .beige => 0.85 | .cream => 0.85
    | .green => 0.7 | .blue => 0.6 | .red => 0.6 | .pink => 0.65 | .purple => 0.7 | .orange => 0.55 | .multi => 0.55
  | .red, b => match b with
    | .black => 0.75 | .white => 0.85 | .gray => 0.7 | .navy => 0.7 | .brown => 0.65 | .beige => 0.7 | .cream => 0.75
    | .green => 0.5 | .blue => 0.6 | .red => 0.5 | .pink => 0.65 | .purple => 0.6 | .orange => 0.5 | .multi => 0.5
  | .pink, b => match b with
    | .black => 0.7 | .white => 0.8 | .gray => 0.75 | .navy => 0.7 | .brown => 0.6 | .beige => 0.75 | .cream => 0.8
    | .green => 0.55 | .blue => 0.65 | .red => 0.65 | .pink => 0.5 | .purple => 0.7 | .orange => 0.5 | .multi => 0.5
  | .purple, b => match b with
    | .black => 0.7 | .white => 0.8 | .gray => 0.75 | .navy => 0.7 | .brown => 0.6 | .beige => 0.7 | .cream => 0.75
    | .green => 0.6 | .blue => 0.7 | .red => 0.6 | .pink => 0.7 | .purple => 0.5 | .orange => 0.5 | .multi => 0.5
  | .orange, b => match b with
    | .black => 0.7 | .white => 0.85 | .gray => 0.7 | .navy => 0.65 | .brown => 0.8 | .beige => 0.8 | .cream => 0.8
    | .green => 0.6 | .blue => 0.55 | .red => 0.5 | .pink => 0.5 | .purple => 0.5 | .orange => 0.5 | .multi => 0.55
  | .multi, b => match b with
    | .black => 0.6 | .white => 0.7 | .gray => 0.6 | .navy => 0.6 | .brown => 0.6 | .beige => 0.65 | .cream => 0.65
    | .green => 0.55 | .blue => 0.55 | .red => 0.5 | .pink => 0.5 | .purple => 0.5 | .orange => 0.55 | .multi => 0.4

/-- `STYLE_COMPATIBILITY` matrix, transcribed entry by entry from the source. -/
def STYLE_COMPATIBILITY : StyleType → StyleType → ℚ
  | .streetwear, b => match b with
    | .streetwear => 1.0 | .casual => 0.85 | .athletic => 0.8 | .formal => 0.3 | .luxury => 0.7 | .minimalist => 0.75
  | .casual, b => match b with
    | .streetwear => 0.85 | .casual => 1.0 | .athletic => 0.75 | .formal => 0.5 | .luxury => 0.7 | .minimalist => 0.9
  | .athletic, b => match b with
    | .streetwear => 0.8 | .casual => 0.75 | .athletic => 1.0 | .formal => 0.2 | .luxury => 0.5 | .minimalist => 0.7
  | .formal, b => match b with
    | .streetwear => 0.3 | .casual => 0.5 | .athletic => 0.2 | .formal => 1.0 | .luxury => 0.85 | .minimalist => 0.8
  | .luxury, b => match b with
    | .streetwear => 0.7 | .casual => 0.7 | .athletic => 0.5 | .formal => 0.85 | .luxury => 1.0 | .minimalist => 0.85
  | .minimalist, b => match b with
    | .streetwear => 0.75 | .casual => 0.9 | .athletic => 0.7 | .formal => 0.8 | .luxury => 0.85 | .minimalist => 1.0

/-- `BRAND_TIERS` association list (brand name, already lower-case, to tier). -/
def BRAND_TIERS : List (String × ℚ) :=
  [("jacquemus", 5), ("omega", 5), ("swatch x omega", 5), ("amiri", 5), ("balmain", 5), ("gucci", 5),
   ("fear of god", 4), ("kenzo", 4), ("polo ralph lauren", 4), ("yeezy", 4), ("ami paris", 4),
   ("karl lagerfeld", 4), ("all saints", 4),
   ("nike", 3), ("adidas", 3), ("new balance", 3), ("on", 3), ("jordan", 3), ("air jordan", 3), ("supreme", 3),
   ("dickies", 2), ("casio", 2), ("stanley", 2), ("hashway", 2), ("myugen", 2), ("blacklist co", 2),
   ("young grandpa", 2), ("forfksake", 2), ("denim co", 2), ("basics", 2), ("streetwear", 2),
   ("nofomo", 1), ("anti matter", 1), ("saucy club", 1), ("bearcare", 1)]

/-- ASCII lower-casing of one character, as `String.prototype.toLowerCase`
acts on the ASCII brand keys of `BRAND_TIERS`. -/
def lowerChar (c : Char) : Char :=
  if 65 ≤ c.toNat ∧ c.toNat ≤ 90 then Char.ofNat (c.toNat + 32) else c

/-- ASCII lower-casing of a string (`brand_name.toLowerCase()`). -/
def lowerString (s : String) : String :=
  String.mk (s.data.map lowerChar)

/-- `BRAND_TIERS[item.brand_name.toLowerCase()] || 2`: tier lookup with
default 2 (all stored tiers are 1..5, hence truthy, so `||` is `getD`). -/
def brandTier (brand : String) : ℚ :=
  ((BRAND_TIERS.lookup (lowerString brand)).getD 2)

/-- `item.color_family || 'black'` (undefined defaults to black). -/
def colorOf (p : Product) : ColorFamily := p.color_family.getD .black

/-- `item.style || 'casual'` (undefined defaults to casual). -/
def styleOf (p : Product) : StyleType := p.style.getD .casual

/-- All (i, j) pairs with i < j, in the order the source's double loop
(`for i; for j = i+1`) visits them. -/
def pairings : List Product → List (Product × Product)
  | [] => []
  | x :: xs => xs.map (fun y => (x, y)) ++ pairings xs

/-- `calculateColorHarmony`: mean of the color matrix over all item pairs,
0.5 when there are no pairs. -/
def calculateColorHarmony (items : List Product) : ℚ :=
  let ps := pairings items
  if 0 < ps.length then
    ((ps.map (fun pr => COLOR_HARMONY (colorOf pr.1) (colorOf pr.2))).sum) / (ps.length : ℚ)
  else 0.5

/-- `calculateStyleMatch`: mean of the style matrix over all item pairs,
0.5 when there are no pairs. -/
def calculateStyleMatch (items : List Product) : ℚ :=
  let ps := pairings items
  if 0 < ps.length then
    ((ps.map (fun pr => STYLE_COMPATIBILITY (styleOf pr.1) (styleOf pr.2))).sum) / (ps.length : ℚ)
  else 0.5

/-- `calculateBrandCohesion`: `max(0, 1 - variance(tiers)/4)`.  (The source
divides by `items.length`; the engine only calls this with 3 or more items.
On the empty list the JS expression is NaN while rational division by zero
makes it 1; that input is unreachable from the engine.) -/
def calculateBrandCohesion (items : List Product) : ℚ :=
  let tiers := items.map (fun i => brandTier i.brand_name)
  let avgTier := tiers.sum / (tiers.length : ℚ)
  let variance := (tiers.map (fun t => (t - avgTier) ^ 2)).sum / (tiers.length : ℚ)
  max 0 (1 - variance / 4)

/-- `calculatePriceBalance`: drop zero prices; 0.5 if none remain; else
`max(0, 1 - mean(((p - mean)/mean)^2))`. -/
def calculatePriceBalance (items : List Product) : ℚ :=
  let prices := (items.map (fun p => p.lowest_price)).filter (fun p => decide (0 < p))
  if prices.length = 0 then 0.5
  else
    let avgPrice := prices.sum / (prices.length : ℚ)
    let variance := (prices.map (fun p => ((p - avgPrice) / avgPrice) ^ 2)).sum / (prices.length : ℚ)
    max 0 (1 - variance)

/-- `calculateSeasonFit`: 1.0 when no target season is given (`undefined` or
the falsy empty string) or the target is "all"; otherwise the fraction of
items whose season is "all" or equals the target. -/
def calculateSeasonFit (items : List Product) (targetSeason : Option String) : ℚ :=
  match targetSeason with
  | none => 1.0
  | some t =>
    if t = "" ∨ t = "all" then 1.0
    else
      (((items.filter (fun i => decide (i.season = some "all" ∨ i.season = some t))).length : ℚ)) /
        (items.length : ℚ)

/-- Per-candidate weighted score of `selectBestItem`: 0.4 color harmony
against the selection (flat 0.4 when nothing selected), 0.35 style match
(falling back to the preferred style, then flat 0.35), 0.15 brand-tier
proximity (flat 0.15 when nothing selected), +0.1 bestseller bonus. -/
def selectionScore (existingItems : List Product) (preferredStyle : Option StyleType)
    (item : Product) : ℚ :=
  let colorPart :=
    if 0 < existingItems.length then
      ((existingItems.map (fun e => COLOR_HARMONY (colorOf item) (colorOf e))).sum /
        (existingItems.length : ℚ)) * 0.4
    else 0.4
  let stylePart :=
    if 0 < existingItems.length then
      ((existingItems.map (fun e => STYLE_COMPATIBILITY (styleOf item) (styleOf e))).sum /
        (existingItems.length : ℚ)) * 0.35
    else
      match preferredStyle with
      | some ps => STYLE_COMPATIBILITY (styleOf item) ps * 0.35
      | none => 0.35
  let tierPart :=
    if 0 < existingItems.length then
      let avgTier := (existingItems.map (fun e => brandTier e.brand_name)).sum /
        (existingItems.length : ℚ)
      let tierDiff := |avgTier - brandTier item.brand_name|
      max 0 (1 - tierDiff / 3) * 0.15
    else 0.15
  let bonus := if "bestseller" ∈ item.tags then (0.1 : ℚ) else 0
  colorPart + stylePart + tierPart + bonus

/-- Insert keeping a descending-by-`f` list descending; an element goes in
front of the first strictly smaller key, after equal keys. -/
def insertDescBy {α : Type} (f : α → ℚ) (x : α) : List α → List α
  | [] => [x]
  | y :: ys => if f y ≤ f x then x :: y :: ys else y :: insertDescBy f x ys

/-- Stable descending sort by `f`: the unique reordering that is descending
in `f` and keeps the original relative order of equal keys — the behaviour
of the source's `sort((a, b) => b.score - a.score)` under the ECMAScript
stable-sort guarantee. -/
def sortDescBy {α : Type} (f : α → ℚ) : List α → List α
  | [] => []
  | x :: xs => insertDescBy f x (sortDescBy f xs)

/-- `selectBestItem`: score every candidate, sort descending, keep the top
min(3, n) and return the one at the drawn random index (`pick` is the
oracle's draw, clamped into range). `none` exactly when the pool is empty. -/
def selectBestItem (candidates existingItems : List Product)
    (preferredStyle : Option StyleType) (pick : ℕ) : Option Product :=
  if candidates.isEmpty then none
  else
    let scored := candidates.map (fun item => (item, selectionScore existingItems preferredStyle item))
    let sorted := sortDescBy (fun p => p.2) scored
    let top := sorted.take 3
    (top.get? (pick % top.length)).map (fun p => p.1)

/-- `ScoreBreakdown` of `@/types/product`: the five dimension scores. -/
structure ScoreBreakdown where
  color_harmony : ℚ
  style_match : ℚ
  brand_cohesion : ℚ
  price_balance : ℚ
  season_fit : ℚ
  deriving DecidableEq, Repr

/-- Outfit record of `@/types/product`.  The source additionally carries a
random generated `id` (`Date.now()`-based, no engine logic reads it) and a
derived natural-language `reasoning` string; neither enters any claim and
they are omitted.  Note the public record has no composite-score field: the
source attaches `tempSortScore` transiently and deletes it before returning. -/
structure Outfit where
  top : Product
  bottom : Product
  footwear : Product
  accessories : List Product
  match_score : ℚ
  score_breakdown : ScoreBreakdown
  total_price : ℚ
  deriving DecidableEq, Repr

/-- `RecommendationRequest` of `@/types/product`. -/
structure RecommendationRequest where
  base_product_id : String
  preferred_style : Option StyleType := none
  season : Option String := none
  num_outfits : Option ℕ := none
  deriving DecidableEq, Repr

/-- `RecommendationResponse`.  `base_product = none` models the source's
`{} as Product` placeholder of the not-found branch. -/
structure RecommendationResponse where
  outfits : List Outfit
  base_product : Option Product
  processing_time_ms : ℚ
  cache_hit : Bool
  deriving DecidableEq, Repr

/-- `Math.round(q * 100) / 100`: round to 2 decimals, halves away from zero
on the nonnegative inputs that occur here (`Math.round(x) = ⌊x + 0.5⌋`). -/
def round2 (q : ℚ) : ℚ := ((⌊q * 100 + 1 / 2⌋ : ℤ) : ℚ) / 100

/-- The private composite sort score: `0.35 color + 0.30 style + 0.20 brand +
0.00 price + 0.15 season` exactly as the `weights` object of the source. -/
def compositeScore (bd : ScoreBreakdown) : ℚ :=
  bd.color_harmony * 0.35 + bd.style_match * 0.30 + bd.brand_cohesion * 0.20 +
    bd.price_balance * 0.00 + bd.season_fit * 0.15

/-- Modelled from the spec: the Catalog Provider (`@/data/products`, not part
of the sources given) exposes `getProductsByCategory(category)`, the catalog
items of that category in catalog order (§6, §3: products are partitioned
into disjoint pools by their category). -/
def getProductsByCategory (catalog : List Product) (c : String) : List Product :=
  catalog.filter (fun p => decide (p.category = c))

/-- Modelled from the spec: the Catalog Provider's `getProductById(id)`,
`Product | not-found` for a static list (§6). -/
def getProductById (catalog : List Product) (id : String) : Option Product :=
  catalog.find? (fun p => decide (p.sku_id = id))

/-- Category pool with sold-out items removed:
`getProductsByCategory(c).filter(p => p.lowest_price > 0)`. -/
def eligiblePool (catalog : List Product) (c : String) : List Product :=
  (getProductsByCategory catalog c).filter (fun p => decide (0 < p.lowest_price))

/-- `getBaseProductOptions()`: every catalog product with a positive price. -/
def getBaseProductOptions (catalog : List Product) : List Product :=
  catalog.filter (fun p => decide (0 < p.lowest_price))

/-- The read-only data one outfit-construction attempt works with: the four
price-filtered pools, the resolved base product and its pool name, the
request's preferences and the random oracle. -/
structure EngineCtx where
  allTops : List Product
  allBottoms : List Product
  allFootwear : List Product
  allAccessories : List Product
  baseProduct : Product
  baseCategory : String
  preferred : Option StyleType
  season : Option String
  rand : ℕ → ℕ

/-- Mutable state of the generation loop: collected outfits paired with
their private `tempSortScore`, the `usedCombinations` keys, and the count of
random draws consumed so far. -/
structure BuildState where
  outfits : List (Outfit × ℚ)
  used : List String
  rc : ℕ

/-- One mandatory-slot fill: keep an already assigned slot, otherwise run the
Selector on the pool minus the items selected so far, appending a successful
pick to the selection (`selectedItems.push`). -/
def fillSlot (pool : List Product) (cur : Option Product) (selected : List Product)
    (preferred : Option StyleType) (rand : ℕ → ℕ) (rc : ℕ) :
    Option Product × List Product × ℕ :=
  match cur with
  | some p => (some p, selected, rc)
  | none =>
    match selectBestItem (pool.filter (fun t => decide (t ∉ selected))) selected preferred (rand rc) with
    | some t => (some t, selected ++ [t], rc + 1)
    | none => (none, selected, rc + 1)

/-- The accessory loop: `n` Selector rounds over the full accessory pool
minus already chosen accessories, conditioned on mandatory slots plus the
accessories chosen so far; unsuccessful rounds add nothing. -/
def addAccessories (pool selected : List Product) (preferred : Option StyleType)
    (rand : ℕ → ℕ) : ℕ → ℕ → List Product → List Product × ℕ
  | 0, rc, acc => (acc, rc)
  | n + 1, rc, acc =>
    match selectBestItem (pool.filter (fun a => decide (a ∉ acc))) (selected ++ acc)
        preferred (rand rc) with
    | some a => addAccessories pool selected preferred rand n (rc + 1) (acc ++ [a])
    | none => addAccessories pool selected preferred rand n (rc + 1) acc

/-- The `usedCombinations` dedup key: the hyphen-joined ordered sku triple. -/
def comboKey (t b s : Product) : String :=
  t.sku_id ++ "-" ++ b.sku_id ++ "-" ++ s.sku_id

/-- Dedup key read back off a finished outfit. -/
def outfitKey (o : Outfit) : String := comboKey o.top o.bottom o.footwear

/-- Full score breakdown of an item set (`breakdown` object of the source). -/
def mkBreakdown (items : List Product) (season : Option String) : ScoreBreakdown :=
  { color_harmony := calculateColorHarmony items
    style_match := calculateStyleMatch items
    brand_cohesion := calculateBrandCohesion items
    price_balance := calculatePriceBalance items
    season_fit := calculateSeasonFit items season }

/-- Tail of one attempt after all three mandatory slots got filled: dedup
check, accessory rounds (1 on even attempts, 2 on odd), score aggregation,
and the push of the outfit together with its private composite score. -/
def finishOutfit (ctx : EngineCtx) (attempt : ℕ) (st : BuildState)
    (t b s : Product) (selected : List Product) (rc : ℕ) : BuildState :=
  let key := comboKey t b s
  if key ∈ st.used then { st with rc := rc }
  else
    let ar := addAccessories ctx.allAccessories selected ctx.preferred ctx.rand
      (1 + attempt % 2) rc []
    let allItems := t :: b :: s :: ar.1
    let breakdown := mkBreakdown allItems ctx.season
    let outfit : Outfit :=
      { top := t, bottom := b, footwear := s, accessories := ar.1
        match_score := round2 breakdown.style_match
        score_breakdown := breakdown
        total_price := (allItems.map (fun i => i.lowest_price)).sum }
    { outfits := st.outfits ++ [(outfit, compositeScore breakdown)]
      used := st.used ++ [key]
      rc := ar.2 }

/-- Initial value of a mandatory slot: the base product when its pool name
matches (`if (baseCategory === c) top = baseProduct`), empty otherwise. -/
def baseSlot (ctx : EngineCtx) (c : String) : Option Product :=
  if ctx.baseCategory = c then some ctx.baseProduct else none

/-- Initial `selectedItems`: the base product when it went into one of the
three mandatory slots; empty when its pool is accessories (the source has no
branch pushing an accessory-pool base product). -/
def baseSelected (ctx : EngineCtx) : List Product :=
  if ctx.baseCategory = "tops" ∨ ctx.baseCategory = "bottoms" ∨ ctx.baseCategory = "footwear"
  then [ctx.baseProduct] else []

/-- End of one attempt: `if (!top || !bottom || !shoe) continue` — an
incomplete attempt only advances the draw counter, a complete one proceeds
to `finishOutfit`. -/
def attemptCore (ctx : EngineCtx) (attempt : ℕ) (st : BuildState)
    (o1 o2 o3 : Option Product) (selected : List Product) (rc : ℕ) : BuildState :=
  match o1, o2, o3 with
  | some t, some b, some s => finishOutfit ctx attempt st t b s selected rc
  | _, _, _ => { st with rc := rc }

/-- One iteration of the generation loop: assign the base product to its
slot, fill the remaining mandatory slots through the Selector in the order
top, bottom, footwear, then (when complete) run `finishOutfit`. -/
def attemptOutfit (ctx : EngineCtx) (attempt : ℕ) (st : BuildState) : BuildState :=
  let r1 := fillSlot ctx.allTops (baseSlot ctx "tops") (baseSelected ctx) ctx.preferred ctx.rand st.rc
  let r2 := fillSlot ctx.allBottoms (baseSlot ctx "bottoms") r1.2.1 ctx.preferred ctx.rand r1.2.2
  let r3 := fillSlot ctx.allFootwear (baseSlot ctx "footwear") r2.2.1 ctx.preferred ctx.rand r2.2.2
  attemptCore ctx attempt st r1.1 r2.1 r3.1 r3.2.1 r3.2.2

/-- The attempt loop `for (attempt = 0; attempt < numOutfits * 5 &&
outfits.length < numOutfits; attempt++)`, with the remaining tries as fuel. -/
def runAttempts (ctx : EngineCtx) (numOutfits : ℕ) : ℕ → ℕ → BuildState → BuildState
  | 0, _, st => st
  | fuel + 1, attempt, st =>
    if st.outfits.length < numOutfits then
      runAttempts ctx numOutfits fuel (attempt + 1) (attemptOutfit ctx attempt st)
    else st

/-- Pool partition and base categorisation of the source: the base product's
pool is the first of tops, bottoms, footwear whose (price-filtered) pool
contains its sku, defaulting to accessories. -/
def mkCtx (catalog : List Product) (rand : ℕ → ℕ) (pref : Option StyleType)
    (season : Option String) (baseProduct : Product) : EngineCtx :=
  let allTops := eligiblePool catalog "tops"
  let allBottoms := eligiblePool catalog "bottoms"
  let allFootwear := eligiblePool catalog "footwear"
  let allAccessories := eligiblePool catalog "accessories"
  let baseCategory :=
    if allTops.any (fun p => p.sku_id == baseProduct.sku_id) then "tops"
    else if allBottoms.any (fun p => p.sku_id == baseProduct.sku_id) then "bottoms"
    else if allFootwear.any (fun p => p.sku_id == baseProduct.sku_id) then "footwear"
    else "accessories"
  { allTops := allTops, allBottoms := allBottoms, allFootwear := allFootwear
    allAccessories := allAccessories, baseProduct := baseProduct
    baseCategory := baseCategory, preferred := pref, season := season, rand := rand }

/-- The resolved-base path of the engine: run the attempt loop, sort the
collected outfits by the private composite score descending (dropping the
private score), truncate to `numOutfits`, and package the response. -/
def genWithBase (catalog : List Product) (rand : ℕ → ℕ) (elapsedMs : ℚ)
    (pref : Option StyleType) (season : Option String) (numOutfits : ℕ)
    (baseProduct : Product) : RecommendationResponse :=
  let ctx := mkCtx catalog rand pref season baseProduct
  let final := runAttempts ctx numOutfits (numOutfits * 5) 0 ⟨[], [], 0⟩
  let sorted := sortDescBy (fun p => p.2) final.outfits
  { outfits := (sorted.map (fun p => p.1)).take numOutfits
    base_product := some baseProduct
    processing_time_ms := round2 elapsedMs
    cache_hit := false }

/-- `request.num_outfits || 3`: absent — and, 0 being falsy, zero — become 3. -/
def effectiveNumOutfits (r : RecommendationRequest) : ℕ :=
  match r.num_outfits with
  | none => 3
  | some 0 => 3
  | some n => n

/-- `generateOutfitRecommendations`: resolve the base product; on failure
return the well-formed empty response (the not-found branch reports the raw
elapsed time, the success branch rounds it to 2 decimals as the source does). -/
def generateOutfitRecommendations (catalog : List Product) (rand : ℕ → ℕ)
    (elapsedMs : ℚ) (request : RecommendationRequest) : RecommendationResponse :=
  match getProductById catalog request.base_product_id with
  | none =>
    { outfits := [], base_product := none
      processing_time_ms := elapsedMs, cache_hit := false }
  | some baseProduct =>
    genWithBase catalog rand elapsedMs request.preferred_style request.season
      (effectiveNumOutfits request) baseProduct

/-- All five fields of a `ScoreBreakdown` lie in the unit interval. -/
def breakdown01 (bd : ScoreBreakdown) : Prop :=
  (0 ≤ bd.color_harmony ∧ bd.color_harmony ≤ 1) ∧
  (0 ≤ bd.style_match ∧ bd.style_match ≤ 1) ∧
  (0 ≤ bd.brand_cohesion ∧ bd.brand_cohesion ≤ 1) ∧
  (0 ≤ bd.price_balance ∧ bd.price_balance ≤ 1) ∧
  (0 ≤ bd.season_fit ∧ bd.season_fit ≤ 1)

/-- Everything the claims need about one collected (outfit, sort score)
pair: the stored sort key is the composite score of its breakdown, the
displayed score is the rounded style match, the mandatory slots draw their
skus from the right pools (and hold the base product when its pool
matches), the accessory count is bounded, and all scores are in [0, 1]. -/
structure OutfitOK (ctx : EngineCtx) (p : Outfit × ℚ) : Prop where
  score_eq : p.2 = compositeScore p.1.score_breakdown
  display_eq : p.1.match_score = round2 p.1.score_breakdown.style_match
  top_mem : p.1.top.sku_id ∈ ctx.allTops.map (fun q => q.sku_id)
  bottom_mem : p.1.bottom.sku_id ∈ ctx.allBottoms.map (fun q => q.sku_id)
  shoe_mem : p.1.footwear.sku_id ∈ ctx.allFootwear.map (fun q => q.sku_id)
  base_top : ctx.baseCategory = "tops" → p.1.top = ctx.baseProduct
  base_bottom : ctx.baseCategory = "bottoms" → p.1.bottom = ctx.baseProduct
  base_shoe : ctx.baseCategory = "footwear" → p.1.footwear = ctx.baseProduct
  acc_le : p.1.accessories.length ≤ 2
  acc_pos : ctx.allAccessories ≠ [] → 1 ≤ p.1.accessories.length
  bd01 : breakdown01 p.1.score_breakdown
  ms01 : 0 ≤ p.1.match_score ∧ p.1.match_score ≤ 1
  bd_items : p.1.score_breakdown =
    mkBreakdown (p.1.top :: p.1.bottom :: p.1.footwear :: p.1.accessories) ctx.season
  tp_eq : p.1.total_price =
    ((p.1.top :: p.1.bottom :: p.1.footwear :: p.1.accessories).map (fun i => i.lowest_price)).sum
  top_src : ctx.baseCategory ≠ "tops" → p.1.top ∈ ctx.allTops
  bottom_src : ctx.baseCategory ≠ "bottoms" → p.1.bottom ∈ ctx.allBottoms
  shoe_src : ctx.baseCategory ≠ "footwear" → p.1.footwear ∈ ctx.allFootwear
  acc_src : ∀ a ∈ p.1.accessories, a ∈ ctx.allAccessories

/-- Loop invariant of the generation loop: every collected pair is good,
the dedup keys of the collected outfits are pairwise distinct, and every
collected key has been recorded in `usedCombinations`. -/
def StateOK (ctx : EngineCtx) (st : BuildState) : Prop :=
  (∀ p ∈ st.outfits, OutfitOK ctx p) ∧
  (st.outfits.map (fun p => outfitKey p.1)).Nodup ∧
  (∀ p ∈ st.outfits, outfitKey p.1 ∈ st.used)

/-- What `mkCtx` guarantees about its categorisation: when a mandatory pool
is chosen for the base product, that pool really contains its sku. -/
structure CtxWF (ctx : EngineCtx) : Prop where
  top_base : ctx.baseCategory = "tops" → ctx.baseProduct.sku_id ∈ ctx.allTops.map (fun q => q.sku_id)
  bottom_base : ctx.baseCategory = "bottoms" → ctx.baseProduct.sku_id ∈ ctx.allBottoms.map (fun q => q.sku_id)
  shoe_base : ctx.baseCategory = "footwear" → ctx.baseProduct.sku_id ∈ ctx.allFootwear.map (fun q => q.sku_id)

/-- The dedup identity of an outfit as the spec states it: the unordered
triple of mandatory-slot sku ids. -/
def dedupTriple (o : Outfit) : Multiset String :=
  {o.top.sku_id, o.bottom.sku_id, o.footwear.sku_id}

/-! Concrete catalogs used to instantiate hypotheses and to refute claims;
the first four mirror the §8 scenario of the spec. -/

/-- Scenario product `TOP_001` (white, casual, price 1000). -/
def demoTop : Product :=
  { sku_id := "TOP_001", brand_name := "acme", category := "tops", lowest_price := 1000,
    color_family := some .white, style := some .casual, season := some "all", tags := [] }

/-- Scenario product `BOTTOM_001` (navy, casual, price 1500). -/
def demoBottom : Product :=
  { sku_id := "BOTTOM_001", brand_name := "acme", category := "bottoms", lowest_price := 1500,
    color_family := some .navy, style := some .casual, season := some "all", tags := [] }

/-- Scenario product `SHOE_001` (white, casual, price 2000). -/
def demoShoe : Product :=
  { sku_id := "SHOE_001", brand_name := "acme", category := "footwear", lowest_price := 2000,
    color_family := some .white, style := some .casual, season := some "all", tags := [] }

/-- Scenario accessory `ACC_001` (price 500, bestseller). -/
def demoAcc : Product :=
  { sku_id := "ACC_001", brand_name := "acme", category := "accessories", lowest_price := 500,
    color_family := some .white, style := some .casual, season := some "all", tags := ["bestseller"] }

/-- The §8 scenario catalog. -/
def demoCatalog : List Product := [demoTop, demoBottom, demoShoe, demoAcc]

/-- A fixed random oracle (always draws index 0). -/
def demoRand : ℕ → ℕ := fun _ => 0

/-- The §8 scenario request. -/
def demoReq : RecommendationRequest := { base_product_id := "TOP_001", num_outfits := some 1 }

/-- The §8 scenario response under the index-0 oracle. -/
def demoResp : RecommendationResponse :=
  generateOutfitRecommendations demoCatalog demoRand 1 demoReq

/-- Fallback outfit used only as the `headD` default below. -/
def dummyOutfit : Outfit :=
  { top := demoTop, bottom := demoBottom, footwear := demoShoe, accessories := [],
    match_score := 0, score_breakdown := ⟨0, 0, 0, 0, 0⟩, total_price := 0 }

/-- The single outfit of the scenario response. -/
def demoOutfit : Outfit := demoResp.outfits.headD dummyOutfit

/-- Accessory-category base product for the C6 refutation. -/
def cAccBase : Product :=
  { sku_id := "ACC_B", brand_name := "acme", category := "accessories", lowest_price := 500,
    color_family := some .black, style := some .casual, season := some "all", tags := [] }

/-- Second accessory of the C6 refutation catalog. -/
def cAccOther : Product :=
  { sku_id := "ACC_X", brand_name := "acme", category := "accessories", lowest_price := 600,
    color_family := some .black, style := some .casual, season := some "all", tags := [] }

/-- C6 refutation catalog: full pools, base product in the accessory pool. -/
def c6Catalog : List Product := [demoTop, demoBottom, demoShoe, cAccBase, cAccOther]

/-- Oracle that draws index 1 at the accessory pick (the fourth selector
invocation of the run) and 0 everywhere else. -/
def c6Rand : ℕ → ℕ := fun n => if n = 3 then 1 else 0

/-- C6 refutation response: base product `ACC_B`, one outfit requested. -/
def c6Resp : RecommendationResponse :=
  generateOutfitRecommendations c6Catalog c6Rand 1
    { base_product_id := "ACC_B", num_outfits := some 1 }

/-- C7 refutation catalog: the three mandatory pools, no accessories. -/
def c7Catalog : List Product := [demoTop, demoBottom, demoShoe]

/-- C7 refutation response. -/
def c7Resp : RecommendationResponse :=
  generateOutfitRecommendations c7Catalog demoRand 1
    { base_product_id := "TOP_001", num_outfits := some 1 }

/-- C10 refutation catalog: the base product resolves but the bottoms and
footwear pools are empty, so no attempt can complete. -/
def c10Catalog : List Product := [demoTop]

/-- C10 refutation response: `num_outfits = 0` with a resolvable base. -/
def c10Resp : RecommendationResponse :=
  generateOutfitRecommendations c10Catalog demoRand 1
    { base_product_id := "TOP_001", num_outfits := some 0 }

/-! Helper lemmas: list sums, the stable descending sort, the Selector. -/

theorem listSum_nonneg {l : List ℚ} (h : ∀ x ∈ l, 0 ≤ x) : 0 ≤ l.sum := by
  induction l with
  | nil => simp
  | cons a t ih =>
    simp only [List.sum_cons]
    exact add_nonneg (h a (by simp)) (ih fun x hx => h x (by simp [hx]))

theorem listSum_le_length {l : List ℚ} (h : ∀ x ∈ l, x ≤ 1) : l.sum ≤ (l.length : ℚ) := by
  induction l with
  | nil => simp
  | cons a t ih =>
    simp only [List.sum_cons, List.length_cons]
    push_cast
    have ha := h a (by simp)
    have ht := ih fun x hx => h x (by simp [hx])
    linarith

theorem listMean_01 {l : List ℚ} (h : ∀ x ∈ l, 0 ≤ x ∧ x ≤ 1) (hl : 0 < l.length) :
    0 ≤ l.sum / (l.length : ℚ) ∧ l.sum / (l.length : ℚ) ≤ 1 := by
  constructor
  · exact div_nonneg (listSum_nonneg fun x hx => (h x hx).1) (Nat.cast_nonneg _)
  · rw [div_le_one (by exact_mod_cast hl)]
    exact listSum_le_length fun x hx => (h x hx).2

theorem insertDescBy_perm {α : Type} (f : α → ℚ) (x : α) (l : List α) :
    List.Perm (insertDescBy f x l) (x :: l) := by
  induction l with
  | nil => rfl
  | cons y ys ih =>
    unfold insertDescBy
    split
    · rfl
    · exact (ih.cons y).trans (List.Perm.swap x y ys)

theorem sortDescBy_perm {α : Type} (f : α → ℚ) (l : List α) : List.Perm (sortDescBy f l) l := by
  induction l with
  | nil => rfl
  | cons x xs ih => exact (insertDescBy_perm f x (sortDescBy f xs)).trans (ih.cons x)

theorem insertDescBy_pairwise {α : Type} (f : α → ℚ) (x : α) {l : List α}
    (h : l.Pairwise (fun a b => f b ≤ f a)) :
    (insertDescBy f x l).Pairwise (fun a b => f b ≤ f a) := by
  induction l with
  | nil => simp [insertDescBy]
  | cons y ys ih =>
    rw [List.pairwise_cons] at h
    unfold insertDescBy
    split
    case isTrue hle =>
      rw [List.pairwise_cons]
      refine ⟨?_, List.pairwise_cons.mpr h⟩
      intro z hz
      rcases List.mem_cons.mp hz with rfl | hz
      · exact hle
      · exact le_trans (h.1 z hz) hle
    case isFalse hgt =>
      rw [List.pairwise_cons]
      refine ⟨?_, ih h.2⟩
      intro z hz
      have hz2 := (insertDescBy_perm f x ys).mem_iff.mp hz
      rcases List.mem_cons.mp hz2 with rfl | hz3
      · exact le_of_not_le hgt
      · exact h.1 z hz3

theorem sortDescBy_pairwise {α : Type} (f : α → ℚ) (l : List α) :
    (sortDescBy f l).Pairwise (fun a b => f b ≤ f a) := by
  induction l with
  | nil => simp [sortDescBy]
  | cons x xs ih => exact insertDescBy_pairwise f x ih

theorem get?_isSome_of_lt {α : Type} : ∀ (l : List α) (n : ℕ), n < l.length →
    ∃ a, l.get? n = some a
  | a :: _, 0, _ => ⟨a, rfl⟩
  | _ :: t, n + 1, h => get?_isSome_of_lt t n (Nat.lt_of_succ_lt_succ h)

theorem get?_mem {α : Type} : ∀ {l : List α} {n : ℕ} {a : α}, l.get? n = some a → a ∈ l
  | b :: _, 0, _, h => by simp at h; simp [h]
  | _ :: t, n + 1, a, h => List.mem_cons_of_mem _ (@get?_mem _ t _ _ h)

theorem selectBestItem_mem {candidates existingItems : List Product}
    {preferredStyle : Option StyleType} {pick : ℕ} {x : Product}
    (h : selectBestItem candidates existingItems preferredStyle pick = some x) :
    x ∈ candidates := by
  unfold selectBestItem at h
  split at h
  · exact absurd h (by simp)
  · simp only [Option.map_eq_some'] at h
    obtain ⟨p, hp, rfl⟩ := h
    have h1 : p ∈ (sortDescBy (fun p => p.2)
        (candidates.map fun item => (item, selectionScore existingItems preferredStyle item))).take 3 :=
      get?_mem hp
    have h2 := List.mem_of_mem_take h1
    have h3 := (sortDescBy_perm _ _).mem_iff.mp h2
    obtain ⟨item, hitem, heq⟩ := List.mem_map.mp h3
    rw [← heq]
    exact hitem

theorem selectBestItem_isSome {candidates existingItems : List Product}
    {preferredStyle : Option StyleType} {pick : ℕ} (h : candidates ≠ []) :
    ∃ x, selectBestItem candidates existingItems preferredStyle pick = some x := by
  have hlen : 0 < ((sortDescBy (fun p : Product × ℚ => p.2)
      (candidates.map fun item => (item, selectionScore existingItems preferredStyle item))).take 3).length := by
    rw [List.length_take,
      (sortDescBy_perm (fun p : Product × ℚ => p.2)
        (candidates.map fun item => (item, selectionScore existingItems preferredStyle item))).length_eq,
      List.length_map]
    have hc : 0 < candidates.length := List.length_pos.mpr h
    omega
  obtain ⟨p, hp⟩ := get?_isSome_of_lt _ (pick % ((sortDescBy (fun p : Product × ℚ => p.2)
      (candidates.map fun item => (item, selectionScore existingItems preferredStyle item))).take 3).length)
    (Nat.mod_lt pick hlen)
  refine ⟨p.1, ?_⟩
  unfold selectBestItem
  rw [if_neg (by simpa using h)]
  simp only [hp, Option.map_some']

/-! Bounds of the five dimension scorers and the display rounding. -/

theorem colorEntry_01 : ∀ a b : ColorFamily, 0 ≤ COLOR_HARMONY a b ∧ COLOR_HARMONY a b ≤ 1 := by
  with_unfolding_all decide

theorem styleEntry_01 : ∀ a b : StyleType, 0 ≤ STYLE_COMPATIBILITY a b ∧ STYLE_COMPATIBILITY a b ≤ 1 := by
  with_unfolding_all decide

theorem max_one_sub_01 {v : ℚ} (hv : 0 ≤ v) : 0 ≤ max 0 (1 - v) ∧ max 0 (1 - v) ≤ 1 :=
  ⟨le_max_left _ _, max_le (by norm_num) (by linarith)⟩

theorem max_one_sub_quarter_01 {v : ℚ} (hv : 0 ≤ v) :
    0 ≤ max 0 (1 - v / 4) ∧ max 0 (1 - v / 4) ≤ 1 :=
  ⟨le_max_left _ _, max_le (by norm_num) (by linarith)⟩

theorem calculateColorHarmony_01 (items : List Product) :
    0 ≤ calculateColorHarmony items ∧ calculateColorHarmony items ≤ 1 := by
  by_cases hl : 0 < (pairings items).length
  · have hmem : ∀ x ∈ (pairings items).map (fun pr => COLOR_HARMONY (colorOf pr.1) (colorOf pr.2)),
        0 ≤ x ∧ x ≤ 1 := by
      intro x hx
      obtain ⟨pr, _, rfl⟩ := List.mem_map.mp hx
      exact colorEntry_01 _ _
    have hm := listMean_01 hmem (by simpa using hl)
    simp only [calculateColorHarmony, if_pos hl]
    simpa [List.length_map] using hm
  · simp only [calculateColorHarmony, if_neg hl]
    norm_num

theorem calculateStyleMatch_01 (items : List Product) :
    0 ≤ calculateStyleMatch items ∧ calculateStyleMatch items ≤ 1 := by
  by_cases hl : 0 < (pairings items).length
  · have hmem : ∀ x ∈ (pairings items).map (fun pr => STYLE_COMPATIBILITY (styleOf pr.1) (styleOf pr.2)),
        0 ≤ x ∧ x ≤ 1 := by
      intro x hx
      obtain ⟨pr, _, rfl⟩ := List.mem_map.mp hx
      exact styleEntry_01 _ _
    have hm := listMean_01 hmem (by simpa using hl)
    simp only [calculateStyleMatch, if_pos hl]
    simpa [List.length_map] using hm
  · simp only [calculateStyleMatch, if_neg hl]
    norm_num

theorem calculateBrandCohesion_01 (items : List Product) :
    0 ≤ calculateBrandCohesion items ∧ calculateBrandCohesion items ≤ 1 := by
  simp only [calculateBrandCohesion]
  apply max_one_sub_quarter_01
  apply div_nonneg _ (Nat.cast_nonneg _)
  apply listSum_nonneg
  intro x hx
  obtain ⟨t, _, rfl⟩ := List.mem_map.mp hx
  positivity

theorem calculatePriceBalance_01 (items : List Product) :
    0 ≤ calculatePriceBalance items ∧ calculatePriceBalance items ≤ 1 := by
  simp only [calculatePriceBalance]
  by_cases hc : ((items.map fun p => p.lowest_price).filter (fun p => decide (0 < p))).length = 0
  · rw [if_pos hc]
    norm_num
  · rw [if_neg hc]
    apply max_one_sub_01
    apply div_nonneg _ (Nat.cast_nonneg _)
    apply listSum_nonneg
    intro x hx
    obtain ⟨t, _, rfl⟩ := List.mem_map.mp hx
    positivity

theorem calculateSeasonFit_01 (items : List Product) (targetSeason : Option String) :
    0 ≤ calculateSeasonFit items targetSeason ∧ calculateSeasonFit items targetSeason ≤ 1 := by
  rcases targetSeason with _ | t
  · simp only [calculateSeasonFit]
    norm_num
  · simp only [calculateSeasonFit]
    by_cases ht : t = "" ∨ t = "all"
    · rw [if_pos ht]
      norm_num
    · rw [if_neg ht]
      constructor
      · exact div_nonneg (Nat.cast_nonneg _) (Nat.cast_nonneg _)
      · rcases Nat.eq_zero_or_pos items.length with hz | hpos
        · obtain rfl := List.length_eq_zero.mp hz
          simp
        · rw [div_le_one (by exact_mod_cast hpos)]
          exact_mod_cast List.length_filter_le _ _

theorem round2_01 {q : ℚ} (h0 : 0 ≤ q) (h1 : q ≤ 1) : 0 ≤ round2 q ∧ round2 q ≤ 1 := by
  unfold round2
  constructor
  · apply div_nonneg _ (by norm_num)
    have hx : (0 : ℚ) ≤ q * 100 + 1 / 2 := by linarith
    exact_mod_cast Int.floor_nonneg.mpr hx
  · rw [div_le_one (by norm_num)]
    have hx : q * 100 + 1 / 2 ≤ (201 : ℚ) / 2 := by linarith
    have hfl : ⌊q * 100 + 1 / 2⌋ ≤ ⌊(201 : ℚ) / 2⌋ := Int.floor_le_floor hx
    have h201 : ⌊(201 : ℚ) / 2⌋ = 100 := by with_unfolding_all decide
    rw [h201] at hfl
    exact_mod_cast hfl

theorem mkBreakdown_01 (items : List Product) (season : Option String) :
    (0 ≤ (mkBreakdown items season).color_harmony ∧ (mkBreakdown items season).color_harmony ≤ 1) ∧
    (0 ≤ (mkBreakdown items season).style_match ∧ (mkBreakdown items season).style_match ≤ 1) ∧
    (0 ≤ (mkBreakdown items season).brand_cohesion ∧ (mkBreakdown items season).brand_cohesion ≤ 1) ∧
    (0 ≤ (mkBreakdown items season).price_balance ∧ (mkBreakdown items season).price_balance ≤ 1) ∧
    (0 ≤ (mkBreakdown items season).season_fit ∧ (mkBreakdown items season).season_fit ≤ 1) :=
  ⟨calculateColorHarmony_01 items, calculateStyleMatch_01 items, calculateBrandCohesion_01 items,
    calculatePriceBalance_01 items, calculateSeasonFit_01 items season⟩

/-! Slot filling, accessory loop and loop-invariant preservation. -/

theorem fillSlot_mem {pool : List Product} {cur : Option Product} {selected : List Product}
    {preferred : Option StyleType} {rand : ℕ → ℕ} {rc : ℕ} {t : Product}
    (h : (fillSlot pool cur selected preferred rand rc).1 = some t) :
    cur = some t ∨ (cur = none ∧ t ∈ pool) := by
  rcases cur with _ | p
  · right
    refine ⟨rfl, ?_⟩
    unfold fillSlot at h
    rcases hsel : selectBestItem (pool.filter fun x => decide (x ∉ selected)) selected preferred (rand rc) with _ | u
    · rw [hsel] at h
      exact absurd h (by simp)
    · rw [hsel] at h
      simp only [Option.some.injEq] at h
      subst h
      exact List.mem_of_mem_filter (selectBestItem_mem hsel)
  · left
    simpa [fillSlot] using h

theorem fill_fact {ctx : EngineCtx} {pool : List Product} {c : String}
    (hbase : ctx.baseCategory = c → ctx.baseProduct.sku_id ∈ pool.map (fun q => q.sku_id))
    {sel : List Product} {rc : ℕ} :
    ∀ t, (fillSlot pool (baseSlot ctx c) sel ctx.preferred ctx.rand rc).1 = some t →
      t.sku_id ∈ pool.map (fun q => q.sku_id) ∧ (ctx.baseCategory = c → t = ctx.baseProduct) ∧
        (ctx.baseCategory ≠ c → t ∈ pool) := by
  intro t ht
  rcases fillSlot_mem ht with hcur | ⟨hnone, hmem⟩
  · unfold baseSlot at hcur
    split at hcur
    case isTrue hbc =>
      obtain rfl : ctx.baseProduct = t := by simpa using hcur
      exact ⟨hbase hbc, fun _ => rfl, fun hne => absurd hbc hne⟩
    case isFalse hbc =>
      exact absurd hcur (by simp)
  · refine ⟨List.mem_map.mpr ⟨t, hmem, rfl⟩, ?_, fun _ => hmem⟩
    intro hbc
    unfold baseSlot at hnone
    rw [if_pos hbc] at hnone
    exact absurd hnone (by simp)

theorem addAccessories_length_le (pool selected : List Product) (preferred : Option StyleType)
    (rand : ℕ → ℕ) :
    ∀ (n rc : ℕ) (acc : List Product),
      (addAccessories pool selected preferred rand n rc acc).1.length ≤ acc.length + n := by
  intro n
  induction n with
  | zero =>
    intro rc acc
    simp [addAccessories]
  | succ m ih =>
    intro rc acc
    unfold addAccessories
    rcases hsel : selectBestItem (pool.filter fun a => decide (a ∉ acc)) (selected ++ acc)
        preferred (rand rc) with _ | a
    · exact le_trans (ih (rc + 1) acc) (by omega)
    · refine le_trans (ih (rc + 1) (acc ++ [a])) ?_
      simp only [List.length_append, List.length_cons, List.length_nil]
      omega

theorem addAccessories_length_ge (pool selected : List Product) (preferred : Option StyleType)
    (rand : ℕ → ℕ) :
    ∀ (n rc : ℕ) (acc : List Product),
      acc.length ≤ (addAccessories pool selected preferred rand n rc acc).1.length := by
  intro n
  induction n with
  | zero =>
    intro rc acc
    simp [addAccessories]
  | succ m ih =>
    intro rc acc
    unfold addAccessories
    rcases hsel : selectBestItem (pool.filter fun a => decide (a ∉ acc)) (selected ++ acc)
        preferred (rand rc) with _ | a
    · exact ih (rc + 1) acc
    · refine le_trans ?_ (ih (rc + 1) (acc ++ [a]))
      simp only [List.length_append, List.length_cons, List.length_nil]
      omega

theorem addAccessories_pos {pool selected : List Product} {preferred : Option StyleType}
    {rand : ℕ → ℕ} (hpool : pool ≠ []) {n : ℕ} (hn : 1 ≤ n) (rc : ℕ) :
    1 ≤ (addAccessories pool selected preferred rand n rc []).1.length := by
  match n, hn with
  | m + 1, _ =>
    unfold addAccessories
    have hfilter : pool.filter (fun a => decide (a ∉ ([] : List Product))) = pool := by
      simp
    obtain ⟨a, ha⟩ := @selectBestItem_isSome (pool.filter fun a => decide (a ∉ ([] : List Product)))
      (selected ++ []) preferred (rand rc) (by rw [hfilter]; exact hpool)
    rw [ha]
    have := addAccessories_length_ge pool selected preferred rand m (rc + 1) ([] ++ [a])
    simpa using this

theorem addAccessories_subset (pool selected : List Product) (preferred : Option StyleType)
    (rand : ℕ → ℕ) :
    ∀ (n rc : ℕ) (acc : List Product) (a : Product),
      a ∈ (addAccessories pool selected preferred rand n rc acc).1 → a ∈ acc ∨ a ∈ pool := by
  intro n
  induction n with
  | zero =>
    intro rc acc a ha
    simp only [addAccessories] at ha
    exact Or.inl ha
  | succ m ih =>
    intro rc acc a ha
    unfold addAccessories at ha
    rcases hsel : selectBestItem (pool.filter fun x => decide (x ∉ acc)) (selected ++ acc)
        preferred (rand rc) with _ | b
    · rw [hsel] at ha
      exact ih (rc + 1) acc a ha
    · rw [hsel] at ha
      rcases ih (rc + 1) (acc ++ [b]) a ha with hin | hin
      · rcases List.mem_append.mp hin with hin2 | hin2
        · exact Or.inl hin2
        · obtain rfl := List.mem_singleton.mp hin2
          exact Or.inr (List.mem_of_mem_filter (selectBestItem_mem hsel))
      · exact Or.inr hin

theorem nodup_append_single {α : Type} {l : List α} {a : α} (h : l.Nodup) (ha : a ∉ l) :
    (l ++ [a]).Nodup := by
  rw [List.nodup_append]
  refine ⟨h, List.nodup_singleton a, ?_⟩
  intro x hx hxa
  rw [List.mem_singleton] at hxa
  subst hxa
  exact ha hx

theorem finishOutfit_ok {ctx : EngineCtx} {st : BuildState} (hst : StateOK ctx st)
    {attempt : ℕ} {t b s : Product} {selected : List Product} {rc : ℕ}
    (htm : t.sku_id ∈ ctx.allTops.map (fun q => q.sku_id))
    (hbm : b.sku_id ∈ ctx.allBottoms.map (fun q => q.sku_id))
    (hsm : s.sku_id ∈ ctx.allFootwear.map (fun q => q.sku_id))
    (hbt : ctx.baseCategory = "tops" → t = ctx.baseProduct)
    (hbb : ctx.baseCategory = "bottoms" → b = ctx.baseProduct)
    (hbs : ctx.baseCategory = "footwear" → s = ctx.baseProduct)
    (hti : ctx.baseCategory ≠ "tops" → t ∈ ctx.allTops)
    (hbi : ctx.baseCategory ≠ "bottoms" → b ∈ ctx.allBottoms)
    (hsi : ctx.baseCategory ≠ "footwear" → s ∈ ctx.allFootwear) :
    StateOK ctx (finishOutfit ctx attempt st t b s selected rc) := by
  unfold finishOutfit
  by_cases hk : comboKey t b s ∈ st.used
  · rw [if_pos hk]
    exact hst
  · rw [if_neg hk]
    simp only
    constructor
    · intro p hp
      rcases List.mem_append.mp hp with hold | hnew
      · exact hst.1 p hold
      · have hpe := List.mem_singleton.mp hnew
        subst hpe
        have hbd := mkBreakdown_01
          (t :: b :: s :: (addAccessories ctx.allAccessories selected ctx.preferred ctx.rand
            (1 + attempt % 2) rc []).1) ctx.season
        refine ⟨rfl, rfl, htm, hbm, hsm, fun h => hbt h, fun h => hbb h, fun h => hbs h,
          ?_, ?_, ?_, ?_, rfl, rfl, fun h => hti h, fun h => hbi h, fun h => hsi h, ?_⟩
        · show (addAccessories ctx.allAccessories selected ctx.preferred ctx.rand
            (1 + attempt % 2) rc []).1.length ≤ 2
          have hle := addAccessories_length_le ctx.allAccessories selected ctx.preferred ctx.rand
            (1 + attempt % 2) rc []
          have h2 : attempt % 2 < 2 := Nat.mod_lt attempt (by omega)
          simp only [List.length_nil] at hle
          omega
        · intro hne
          exact addAccessories_pos hne (by omega) rc
        · exact ⟨hbd.1, hbd.2.1, hbd.2.2.1, hbd.2.2.2.1, hbd.2.2.2.2⟩
        · exact round2_01 hbd.2.1.1 hbd.2.1.2
        · intro a ha
          rcases addAccessories_subset ctx.allAccessories selected ctx.preferred ctx.rand
            (1 + attempt % 2) rc [] a ha with hin | hin
          · exact absurd hin (List.not_mem_nil a)
          · exact hin
    · constructor
      · rw [List.map_append]
        apply nodup_append_single hst.2.1
        intro hmem
        simp only [List.map_cons, List.map_nil] at hmem
        obtain ⟨p, hp, hpk⟩ := List.mem_map.mp hmem
        have h3 := hst.2.2 p hp
        rw [hpk] at h3
        exact hk h3
      · intro p hp
        rcases List.mem_append.mp hp with hold | hnew
        · exact List.mem_append_left _ (hst.2.2 p hold)
        · have hpe := List.mem_singleton.mp hnew
          subst hpe
          exact List.mem_append_right _ (by simp [outfitKey])

theorem attemptCore_ok {ctx : EngineCtx} {st : BuildState} (hst : StateOK ctx st)
    {attempt : ℕ} {o1 o2 o3 : Option Product} {selected : List Product} {rc : ℕ}
    (h1 : ∀ t, o1 = some t → t.sku_id ∈ ctx.allTops.map (fun q => q.sku_id) ∧
      (ctx.baseCategory = "tops" → t = ctx.baseProduct) ∧
      (ctx.baseCategory ≠ "tops" → t ∈ ctx.allTops))
    (h2 : ∀ t, o2 = some t → t.sku_id ∈ ctx.allBottoms.map (fun q => q.sku_id) ∧
      (ctx.baseCategory = "bottoms" → t = ctx.baseProduct) ∧
      (ctx.baseCategory ≠ "bottoms" → t ∈ ctx.allBottoms))
    (h3 : ∀ t, o3 = some t → t.sku_id ∈ ctx.allFootwear.map (fun q => q.sku_id) ∧
      (ctx.baseCategory = "footwear" → t = ctx.baseProduct) ∧
      (ctx.baseCategory ≠ "footwear" → t ∈ ctx.allFootwear)) :
    StateOK ctx (attemptCore ctx attempt st o1 o2 o3 selected rc) := by
  rcases o1 with _ | t
  · exact hst
  · rcases o2 with _ | b
    · exact hst
    · rcases o3 with _ | s
      · exact hst
      · obtain ⟨htm, hbt, hti⟩ := h1 t rfl
        obtain ⟨hbm, hbb, hbi⟩ := h2 b rfl
        obtain ⟨hsm, hbs, hsi⟩ := h3 s rfl
        exact finishOutfit_ok hst htm hbm hsm hbt hbb hbs hti hbi hsi

theorem attemptOutfit_ok {ctx : EngineCtx} (hwf : CtxWF ctx) {st : BuildState}
    (hst : StateOK ctx st) (attempt : ℕ) : StateOK ctx (attemptOutfit ctx attempt st) := by
  unfold attemptOutfit
  exact attemptCore_ok hst (fill_fact hwf.top_base) (fill_fact hwf.bottom_base)
    (fill_fact hwf.shoe_base)

theorem runAttempts_ok {ctx : EngineCtx} (hwf : CtxWF ctx) {numOutfits : ℕ} :
    ∀ (fuel attempt : ℕ) (st : BuildState), StateOK ctx st →
      StateOK ctx (runAttempts ctx numOutfits fuel attempt st) := by
  intro fuel
  induction fuel with
  | zero =>
    intro attempt st hst
    exact hst
  | succ m ih =>
    intro attempt st hst
    unfold runAttempts
    split
    · exact ih (attempt + 1) _ (attemptOutfit_ok hwf hst attempt)
    · exact hst

theorem initialState_ok (ctx : EngineCtx) : StateOK ctx ⟨[], [], 0⟩ :=
  ⟨fun p hp => absurd hp (List.not_mem_nil p), by simp, fun p hp => absurd hp (List.not_mem_nil p)⟩

theorem mkCtx_wf (catalog : List Product) (rand : ℕ → ℕ) (pref : Option StyleType)
    (season : Option String) (base : Product) : CtxWF (mkCtx catalog rand pref season base) := by
  constructor
  · intro h
    simp only [mkCtx] at h ⊢
    split at h
    case isTrue ha =>
      obtain ⟨p, hp, hpe⟩ := List.any_eq_true.mp ha
      exact List.mem_map.mpr ⟨p, hp, beq_iff_eq.mp hpe⟩
    case isFalse ha =>
      split at h
      · exact absurd h (by decide)
      · split at h
        · exact absurd h (by decide)
        · exact absurd h (by decide)
  · intro h
    simp only [mkCtx] at h ⊢
    split at h
    case isTrue ha => exact absurd h (by decide)
    case isFalse ha =>
      split at h
      case isTrue hb =>
        obtain ⟨p, hp, hpe⟩ := List.any_eq_true.mp hb
        exact List.mem_map.mpr ⟨p, hp, beq_iff_eq.mp hpe⟩
      case isFalse hb =>
        split at h
        · exact absurd h (by decide)
        · exact absurd h (by decide)
  · intro h
    simp only [mkCtx] at h ⊢
    split at h
    case isTrue ha => exact absurd h (by decide)
    case isFalse ha =>
      split at h
      case isTrue hb => exact absurd h (by decide)
      case isFalse hb =>
        split at h
        case isTrue hc =>
          obtain ⟨p, hp, hpe⟩ := List.any_eq_true.mp hc
          exact List.mem_map.mpr ⟨p, hp, beq_iff_eq.mp hpe⟩
        case isFalse hc => exact absurd h (by decide)

theorem gen_eq_genWithBase {catalog : List Product} {rand : ℕ → ℕ} {elapsedMs : ℚ}
    {request : RecommendationRequest} {base : Product}
    (h : getProductById catalog request.base_product_id = some base) :
    generateOutfitRecommendations catalog rand elapsedMs request =
      genWithBase catalog rand elapsedMs request.preferred_style request.season
        (effectiveNumOutfits request) base := by
  unfold generateOutfitRecommendations
  rw [h]

theorem gen_eq_empty {catalog : List Product} {rand : ℕ → ℕ} {elapsedMs : ℚ}
    {request : RecommendationRequest}
    (h : getProductById catalog request.base_product_id = none) :
    generateOutfitRecommendations catalog rand elapsedMs request =
      ⟨[], none, elapsedMs, false⟩ := by
  unfold generateOutfitRecommendations
  rw [h]

theorem genWithBase_outfits (catalog : List Product) (rand : ℕ → ℕ) (elapsedMs : ℚ)
    (pref : Option StyleType) (season : Option String) (numOutfits : ℕ) (base : Product) :
    ∃ l : List (Outfit × ℚ),
      (∀ p ∈ l, OutfitOK (mkCtx catalog rand pref season base) p) ∧
      (l.map (fun p => outfitKey p.1)).Nodup ∧
      l.Pairwise (fun p q => q.2 ≤ p.2) ∧
      (genWithBase catalog rand elapsedMs pref season numOutfits base).outfits
        = (l.map (fun p => p.1)).take numOutfits := by
  have hfin : StateOK (mkCtx catalog rand pref season base)
      (runAttempts (mkCtx catalog rand pref season base) numOutfits (numOutfits * 5) 0 ⟨[], [], 0⟩) :=
    runAttempts_ok (mkCtx_wf catalog rand pref season base) (numOutfits * 5) 0 _
      (initialState_ok _)
  refine ⟨sortDescBy (fun p => p.2)
    (runAttempts (mkCtx catalog rand pref season base) numOutfits (numOutfits * 5) 0 ⟨[], [], 0⟩).outfits,
    ?_, ?_, ?_, rfl⟩
  · intro p hp
    exact hfin.1 p ((sortDescBy_perm _ _).mem_iff.mp hp)
  · have hperm := (sortDescBy_perm (fun p : Outfit × ℚ => p.2)
      (runAttempts (mkCtx catalog rand pref season base) numOutfits (numOutfits * 5) 0 ⟨[], [], 0⟩).outfits).map
      (fun p => outfitKey p.1)
    exact hperm.nodup_iff.mpr hfin.2.1
  · exact sortDescBy_pairwise _ _

theorem eligible_mem {catalog : List Product} {c : String} {p : Product}
    (hp : p ∈ eligiblePool catalog c) : p ∈ catalog ∧ p.category = c := by
  unfold eligiblePool getProductsByCategory at hp
  have h1 := List.mem_filter.mp hp
  have h2 := List.mem_filter.mp h1.1
  exact ⟨h2.1, by simpa using h2.2⟩

theorem eligible_disjoint {catalog : List Product}
    (hsku : (catalog.map (fun p => p.sku_id)).Nodup)
    {c1 c2 : String} (hne : c1 ≠ c2) {s : String}
    (h1 : s ∈ (eligiblePool catalog c1).map (fun p => p.sku_id))
    (h2 : s ∈ (eligiblePool catalog c2).map (fun p => p.sku_id)) : False := by
  obtain ⟨p, hp, hps⟩ := List.mem_map.mp h1
  obtain ⟨q, hq, hqs⟩ := List.mem_map.mp h2
  obtain ⟨hpc, hpcat⟩ := eligible_mem hp
  obtain ⟨hqc, hqcat⟩ := eligible_mem hq
  have hpq : p ≠ q := by
    intro he
    exact hne (by rw [← hpcat, he, hqcat])
  have hpair : catalog.Pairwise (fun a b => a.sku_id ≠ b.sku_id) := List.pairwise_map.mp hsku
  have hforall := hpair.forall (fun a b hab => hab.symm)
  exact hforall hpc hqc hpq (hps.trans hqs.symm)

theorem dedupTriple_inj {catalog : List Product}
    (hsku : (catalog.map (fun p => p.sku_id)).Nodup) {o1 o2 : Outfit}
    (h1t : o1.top.sku_id ∈ (eligiblePool catalog "tops").map (fun p => p.sku_id))
    (h1b : o1.bottom.sku_id ∈ (eligiblePool catalog "bottoms").map (fun p => p.sku_id))
    (h1s : o1.footwear.sku_id ∈ (eligiblePool catalog "footwear").map (fun p => p.sku_id))
    (h2t : o2.top.sku_id ∈ (eligiblePool catalog "tops").map (fun p => p.sku_id))
    (h2b : o2.bottom.sku_id ∈ (eligiblePool catalog "bottoms").map (fun p => p.sku_id))
    (h2s : o2.footwear.sku_id ∈ (eligiblePool catalog "footwear").map (fun p => p.sku_id))
    (heq : dedupTriple o1 = dedupTriple o2) : outfitKey o1 = outfitKey o2 := by
  have ht : o1.top.sku_id = o2.top.sku_id := by
    have hmem : o2.top.sku_id ∈ dedupTriple o1 := by
      rw [heq]
      simp [dedupTriple]
    simp only [dedupTriple, Multiset.insert_eq_cons, Multiset.mem_cons, Multiset.mem_singleton] at hmem
    rcases hmem with h | h | h
    · exact h.symm
    · exact absurd h (fun h => eligible_disjoint hsku (by decide) (h ▸ h2t) h1b)
    · exact absurd h (fun h => eligible_disjoint hsku (by decide) (h ▸ h2t) h1s)
  have hb : o1.bottom.sku_id = o2.bottom.sku_id := by
    have hmem : o2.bottom.sku_id ∈ dedupTriple o1 := by
      rw [heq]
      simp [dedupTriple]
    simp only [dedupTriple, Multiset.insert_eq_cons, Multiset.mem_cons, Multiset.mem_singleton] at hmem
    rcases hmem with h | h | h
    · exact absurd h (fun h => eligible_disjoint hsku (by decide) (h ▸ h2b) h1t)
    · exact h.symm
    · exact absurd h (fun h => eligible_disjoint hsku (by decide) (h ▸ h2b) h1s)
  have hs : o1.footwear.sku_id = o2.footwear.sku_id := by
    have hmem : o2.footwear.sku_id ∈ dedupTriple o1 := by
      rw [heq]
      simp [dedupTriple]
    simp only [dedupTriple, Multiset.insert_eq_cons, Multiset.mem_cons, Multiset.mem_singleton] at hmem
    rcases hmem with h | h | h
    · exact absurd h (fun h => eligible_disjoint hsku (by decide) (h ▸ h2s) h1t)
    · exact absurd h (fun h => eligible_disjoint hsku (by decide) (h ▸ h2s) h1b)
    · exact h.symm
  unfold outfitKey comboKey
  rw [ht, hb, hs]

theorem resp_outfit_ok {catalog : List Product} {rand : ℕ → ℕ} {elapsedMs : ℚ}
    {request : RecommendationRequest} {base : Product}
    (hbase : getProductById catalog request.base_product_id = some base)
    {o : Outfit} (ho : o ∈ (generateOutfitRecommendations catalog rand elapsedMs request).outfits) :
    ∃ q, OutfitOK (mkCtx catalog rand request.preferred_style request.season base) (o, q) := by
  rw [gen_eq_genWithBase hbase] at ho
  obtain ⟨l, hok, _, _, hout⟩ := genWithBase_outfits catalog rand elapsedMs
    request.preferred_style request.season (effectiveNumOutfits request) base
  rw [hout] at ho
  obtain ⟨p, hp, hpe⟩ := List.mem_map.mp (List.mem_of_mem_take ho)
  refine ⟨p.2, ?_⟩
  rw [← hpe]
  exact hok p hp

theorem resp_outfit_ok_any {catalog : List Product} {rand : ℕ → ℕ} {elapsedMs : ℚ}
    {request : RecommendationRequest} {o : Outfit}
    (ho : o ∈ (generateOutfitRecommendations catalog rand elapsedMs request).outfits) :
    ∃ base q, getProductById catalog request.base_product_id = some base ∧
      OutfitOK (mkCtx catalog rand request.preferred_style request.season base) (o, q) := by
  cases hfind : getProductById catalog request.base_product_id with
  | none =>
    rw [gen_eq_empty hfind] at ho
    exact absurd ho (List.not_mem_nil o)
  | some base =>
    obtain ⟨q, hq⟩ := resp_outfit_ok hfind ho
    exact ⟨base, q, rfl, hq⟩

theorem headD_mem {α : Type} {l : List α} (d : α) (h : l ≠ []) : l.headD d ∈ l := by
  cases l with
  | nil => exact absurd rfl h
  | cons a t => exact List.mem_cons_self a t

/-! The claims. -/

/-- C1: for every outfit in any response, the publicly reported
`match_score` equals the outfit's `style_match` breakdown value rounded to
2 decimal places (`Math.round(userDisplayScore * 100) / 100` with
`userDisplayScore = breakdown.style_match`).  It is thus determined by
`style_match` alone and is not the composite ranking score: the public
`Outfit` record carries no composite field at all — the source deletes its
transient `tempSortScore` before returning (see C2 for the composite). -/
theorem c1_match_score_is_rounded_style_match (catalog : List Product) (rand : ℕ → ℕ)
    (elapsedMs : ℚ) (request : RecommendationRequest) (o : Outfit)
    (ho : o ∈ (generateOutfitRecommendations catalog rand elapsedMs request).outfits) :
    o.match_score = round2 o.score_breakdown.style_match := by
  obtain ⟨base, q, _, hok⟩ := resp_outfit_ok_any ho
  exact hok.display_eq

/-- Witness for C1 at the §8 scenario catalog. -/
theorem c1_witness : demoOutfit.match_score = round2 demoOutfit.score_breakdown.style_match :=
  c1_match_score_is_rounded_style_match demoCatalog demoRand 1 demoReq demoOutfit
    (headD_mem dummyOutfit (List.length_pos.mp (by with_unfolding_all decide)))

/-- C2: for every request with a resolvable base product, the response
outfits are ordered by descending composite score
(0.35 color + 0.30 style + 0.20 brand + 0.00 price + 0.15 season over the
breakdown, the `weights` of the source) and the list is truncated to at
most `num_outfits` entries, where `num_outfits` is the effective requested
count (`request.num_outfits || 3`: an absent — or, 0 being falsy, zero —
count means 3, see C10).  The composite itself is not exposed: the public
`Outfit` record has no composite field. -/
theorem c2_sorted_by_composite_and_truncated (catalog : List Product) (rand : ℕ → ℕ)
    (elapsedMs : ℚ) (request : RecommendationRequest) (base : Product)
    (hbase : getProductById catalog request.base_product_id = some base) :
    ((generateOutfitRecommendations catalog rand elapsedMs request).outfits).Pairwise
      (fun o1 o2 => compositeScore o2.score_breakdown ≤ compositeScore o1.score_breakdown) ∧
    (generateOutfitRecommendations catalog rand elapsedMs request).outfits.length ≤
      effectiveNumOutfits request := by
  rw [gen_eq_genWithBase hbase]
  obtain ⟨l, hok, hnd, hpair, hout⟩ := genWithBase_outfits catalog rand elapsedMs
    request.preferred_style request.season (effectiveNumOutfits request) base
  rw [hout]
  constructor
  · have hp2 : l.Pairwise (fun p q =>
        compositeScore q.1.score_breakdown ≤ compositeScore p.1.score_breakdown) := by
      refine List.Pairwise.imp_of_mem ?_ hpair
      intro a b ha hb hle
      rw [← (hok a ha).score_eq, ← (hok b hb).score_eq]
      exact hle
    have hp3 : (l.map (fun p => p.1)).Pairwise (fun o1 o2 =>
        compositeScore o2.score_breakdown ≤ compositeScore o1.score_breakdown) :=
      List.pairwise_map.mpr hp2
    exact List.Pairwise.sublist (List.take_sublist _ _) hp3
  · exact List.length_take_le _ _

/-- Witness for C2 at the §8 scenario catalog. -/
theorem c2_witness :
    ((generateOutfitRecommendations demoCatalog demoRand 1 demoReq).outfits).Pairwise
      (fun o1 o2 => compositeScore o2.score_breakdown ≤ compositeScore o1.score_breakdown) ∧
    (generateOutfitRecommendations demoCatalog demoRand 1 demoReq).outfits.length ≤
      effectiveNumOutfits demoReq :=
  c2_sorted_by_composite_and_truncated demoCatalog demoRand 1 demoReq demoTop
    (by with_unfolding_all decide)

/-- C3: assuming the catalog's sku ids are unique (§3 declares `sku_id`
unique), no two outfits of one response share the same unordered triple of
mandatory-slot sku ids; accessories are not part of `dedupTriple`.  The
source deduplicates on the ordered joined key, and the three slots draw
from the three disjoint category pools, so ordered and unordered
deduplication coincide. -/
theorem c3_no_duplicate_triples (catalog : List Product) (rand : ℕ → ℕ)
    (elapsedMs : ℚ) (request : RecommendationRequest)
    (hsku : (catalog.map (fun p => p.sku_id)).Nodup) :
    ((generateOutfitRecommendations catalog rand elapsedMs request).outfits).Pairwise
      (fun o1 o2 => dedupTriple o1 ≠ dedupTriple o2) := by
  cases hfind : getProductById catalog request.base_product_id with
  | none =>
    rw [gen_eq_empty hfind]
    simp
  | some base =>
    rw [gen_eq_genWithBase hfind]
    obtain ⟨l, hok, hnd, _, hout⟩ := genWithBase_outfits catalog rand elapsedMs
      request.preferred_style request.season (effectiveNumOutfits request) base
    rw [hout]
    have hnd2 : (((l.map (fun p => p.1)).take (effectiveNumOutfits request)).map outfitKey).Nodup := by
      rw [List.map_take, List.map_map]
      refine List.Nodup.sublist (List.take_sublist _ _) ?_
      simpa [Function.comp] using hnd
    have hkey := List.pairwise_map.mp hnd2
    refine List.Pairwise.imp_of_mem ?_ hkey
    intro a b ha hb hne heq
    exfalso
    apply hne
    obtain ⟨pa, hpa, hpae⟩ := List.mem_map.mp (List.mem_of_mem_take ha)
    obtain ⟨pb, hpb, hpbe⟩ := List.mem_map.mp (List.mem_of_mem_take hb)
    have hoka := hok pa hpa
    have hokb := hok pb hpb
    subst hpae
    subst hpbe
    exact dedupTriple_inj hsku hoka.top_mem hoka.bottom_mem hoka.shoe_mem
      hokb.top_mem hokb.bottom_mem hokb.shoe_mem heq

/-- Witness for C3 at the §8 scenario catalog. -/
theorem c3_witness :
    ((generateOutfitRecommendations demoCatalog demoRand 1 demoReq).outfits).Pairwise
      (fun o1 o2 => dedupTriple o1 ≠ dedupTriple o2) :=
  c3_no_duplicate_triples demoCatalog demoRand 1 demoReq (by with_unfolding_all decide)

/-- C4: a request whose base product id does not resolve yields — without
raising (the embedded engine is a total function, mirroring the source's
early `return`) — a well-formed response: empty outfit list, the `{}`
placeholder base product (`none` here), `cache_hit = false`, and the
measured elapsed time as `processing_time_ms` (positive whenever the
measured duration is). -/
theorem c4_unresolved_base_empty_response (catalog : List Product) (rand : ℕ → ℕ)
    (elapsedMs : ℚ) (request : RecommendationRequest)
    (h : getProductById catalog request.base_product_id = none) :
    (generateOutfitRecommendations catalog rand elapsedMs request).outfits = [] ∧
    (generateOutfitRecommendations catalog rand elapsedMs request).base_product = none ∧
    (generateOutfitRecommendations catalog rand elapsedMs request).cache_hit = false ∧
    (generateOutfitRecommendations catalog rand elapsedMs request).processing_time_ms = elapsedMs ∧
    (0 < elapsedMs →
      0 < (generateOutfitRecommendations catalog rand elapsedMs request).processing_time_ms) := by
  rw [gen_eq_empty h]
  exact ⟨rfl, rfl, rfl, rfl, fun hp => hp⟩

/-- Witness for C4 with the spec's `NOT_REAL` id. -/
theorem c4_witness :
    (generateOutfitRecommendations demoCatalog demoRand 1
      { base_product_id := "NOT_REAL", num_outfits := some 3 }).outfits = [] ∧
    (generateOutfitRecommendations demoCatalog demoRand 1
      { base_product_id := "NOT_REAL", num_outfits := some 3 }).base_product = none ∧
    (generateOutfitRecommendations demoCatalog demoRand 1
      { base_product_id := "NOT_REAL", num_outfits := some 3 }).cache_hit = false ∧
    (generateOutfitRecommendations demoCatalog demoRand 1
      { base_product_id := "NOT_REAL", num_outfits := some 3 }).processing_time_ms = 1 ∧
    ((0 : ℚ) < 1 →
      0 < (generateOutfitRecommendations demoCatalog demoRand 1
        { base_product_id := "NOT_REAL", num_outfits := some 3 }).processing_time_ms) :=
  c4_unresolved_base_empty_response demoCatalog demoRand 1
    { base_product_id := "NOT_REAL", num_outfits := some 3 } (by with_unfolding_all decide)

/-- C5: every outfit of every response has all five `ScoreBreakdown` fields
and the `match_score` inside [0, 1]. -/
theorem c5_scores_in_unit_interval (catalog : List Product) (rand : ℕ → ℕ)
    (elapsedMs : ℚ) (request : RecommendationRequest) (o : Outfit)
    (ho : o ∈ (generateOutfitRecommendations catalog rand elapsedMs request).outfits) :
    (0 ≤ o.score_breakdown.color_harmony ∧ o.score_breakdown.color_harmony ≤ 1) ∧
    (0 ≤ o.score_breakdown.style_match ∧ o.score_breakdown.style_match ≤ 1) ∧
    (0 ≤ o.score_breakdown.brand_cohesion ∧ o.score_breakdown.brand_cohesion ≤ 1) ∧
    (0 ≤ o.score_breakdown.price_balance ∧ o.score_breakdown.price_balance ≤ 1) ∧
    (0 ≤ o.score_breakdown.season_fit ∧ o.score_breakdown.season_fit ≤ 1) ∧
    (0 ≤ o.match_score ∧ o.match_score ≤ 1) := by
  obtain ⟨base, q, _, hok⟩ := resp_outfit_ok_any ho
  obtain ⟨h1, h2, h3, h4, h5⟩ := hok.bd01
  exact ⟨h1, h2, h3, h4, h5, hok.ms01⟩

/-- Witness for C5 at the §8 scenario outfit. -/
theorem c5_witness :
    (0 ≤ demoOutfit.score_breakdown.color_harmony ∧ demoOutfit.score_breakdown.color_harmony ≤ 1) ∧
    (0 ≤ demoOutfit.score_breakdown.style_match ∧ demoOutfit.score_breakdown.style_match ≤ 1) ∧
    (0 ≤ demoOutfit.score_breakdown.brand_cohesion ∧ demoOutfit.score_breakdown.brand_cohesion ≤ 1) ∧
    (0 ≤ demoOutfit.score_breakdown.price_balance ∧ demoOutfit.score_breakdown.price_balance ≤ 1) ∧
    (0 ≤ demoOutfit.score_breakdown.season_fit ∧ demoOutfit.score_breakdown.season_fit ≤ 1) ∧
    (0 ≤ demoOutfit.match_score ∧ demoOutfit.match_score ≤ 1) :=
  c5_scores_in_unit_interval demoCatalog demoRand 1 demoReq demoOutfit
    (headD_mem dummyOutfit (List.length_pos.mp (by with_unfolding_all decide)))

/-- C6 counterexample: the claim "a base product that falls to the
accessories pool is placed into the outfit's accessory slot so that every
returned outfit contains the base product" is false.  Catalog `c6Catalog`
resolves base `ACC_B` to the accessory pool; the engine has no branch
placing it, and with the oracle drawing the other accessory the single
returned outfit contains `ACC_B` nowhere. -/
theorem c6_counterexample :
    getProductById c6Catalog "ACC_B" = some cAccBase ∧
    c6Resp.outfits.length = 1 ∧
    c6Resp.outfits.all (fun o => decide (o.top ≠ cAccBase) && decide (o.bottom ≠ cAccBase) &&
      decide (o.footwear ≠ cAccBase) && !(o.accessories.contains cAccBase)) = true := by
  with_unfolding_all decide

/-- C6 (amended): the base product's pool is determined by checking the
tops, bottoms and footwear pools in that priority order, defaulting to
accessories (the if-chain of `mkCtx`); for the three mandatory pools the
base product is placed into the matching outfit slot of every returned
outfit.  A base product that falls to the accessories pool is placed into
no slot, and returned outfits need not contain it (see the
counterexample). -/
theorem c6_base_placed_in_mandatory_slot (catalog : List Product) (rand : ℕ → ℕ)
    (elapsedMs : ℚ) (request : RecommendationRequest) (base : Product)
    (hbase : getProductById catalog request.base_product_id = some base) (o : Outfit)
    (ho : o ∈ (generateOutfitRecommendations catalog rand elapsedMs request).outfits) :
    ((mkCtx catalog rand request.preferred_style request.season base).baseCategory = "tops" →
      o.top = base) ∧
    ((mkCtx catalog rand request.preferred_style request.season base).baseCategory = "bottoms" →
      o.bottom = base) ∧
    ((mkCtx catalog rand request.preferred_style request.season base).baseCategory = "footwear" →
      o.footwear = base) := by
  obtain ⟨q, hok⟩ := resp_outfit_ok hbase ho
  exact ⟨hok.base_top, hok.base_bottom, hok.base_shoe⟩

/-- Witness for the amended C6 at the §8 scenario (base in the tops pool). -/
theorem c6_witness :
    ((mkCtx demoCatalog demoRand demoReq.preferred_style demoReq.season demoTop).baseCategory = "tops" →
      demoOutfit.top = demoTop) ∧
    ((mkCtx demoCatalog demoRand demoReq.preferred_style demoReq.season demoTop).baseCategory = "bottoms" →
      demoOutfit.bottom = demoTop) ∧
    ((mkCtx demoCatalog demoRand demoReq.preferred_style demoReq.season demoTop).baseCategory = "footwear" →
      demoOutfit.footwear = demoTop) :=
  c6_base_placed_in_mandatory_slot demoCatalog demoRand 1 demoReq demoTop
    (by with_unfolding_all decide) demoOutfit
    (headD_mem dummyOutfit (List.length_pos.mp (by with_unfolding_all decide)))

/-- C7 counterexample: the claim "an ordered sequence of at least 1 and at
most 2 accessories" is false — with an empty accessory pool the accessory
loop adds nothing and an outfit with zero accessories is still returned. -/
theorem c7_counterexample :
    c7Resp.outfits.length = 1 ∧
    c7Resp.outfits.all (fun o => o.accessories.isEmpty) = true := by
  with_unfolding_all decide

/-- C7 (amended): every returned outfit has exactly one top, one bottom and
one footwear item (the three mandatory fields of `Outfit`) and an ordered
sequence of at most 2 accessories; the sequence is non-empty whenever the
eligible accessory pool is non-empty (it can be empty only when the
accessory pool is exhausted, see the counterexample). -/
theorem c7_accessory_count (catalog : List Product) (rand : ℕ → ℕ)
    (elapsedMs : ℚ) (request : RecommendationRequest) (o : Outfit)
    (ho : o ∈ (generateOutfitRecommendations catalog rand elapsedMs request).outfits) :
    o.accessories.length ≤ 2 ∧
    (eligiblePool catalog "accessories" ≠ [] → 1 ≤ o.accessories.length) := by
  obtain ⟨base, q, _, hok⟩ := resp_outfit_ok_any ho
  exact ⟨hok.acc_le, hok.acc_pos⟩

/-- Witness for the amended C7 at the §8 scenario outfit. -/
theorem c7_witness :
    demoOutfit.accessories.length ≤ 2 ∧
    (eligiblePool demoCatalog "accessories" ≠ [] → 1 ≤ demoOutfit.accessories.length) :=
  c7_accessory_count demoCatalog demoRand 1 demoReq demoOutfit
    (headD_mem dummyOutfit (List.length_pos.mp (by with_unfolding_all decide)))

/-- C8: both compatibility matrices are symmetric, entry by entry over the
full enum cross-products (196 color pairs, 36 style pairs).  Totality over
the cross-products is structural here: `COLOR_HARMONY` and
`STYLE_COMPATIBILITY` are total Lean functions because the source tables
define every row and column of the closed enumerations. -/
theorem c8_matrices_symmetric :
    (∀ a b : ColorFamily, COLOR_HARMONY a b = COLOR_HARMONY b a) ∧
    (∀ a b : StyleType, STYLE_COMPATIBILITY a b = STYLE_COMPATIBILITY b a) := by
  with_unfolding_all decide

/-- C9 counterexample: the white–navy color-harmony entry is 0.95, not a
value beginning 0.85 as the claim (and §8 of the spec) states. -/
theorem c9_counterexample :
    COLOR_HARMONY ColorFamily.white ColorFamily.navy = 0.95 ∧
    ¬(0.85 ≤ COLOR_HARMONY ColorFamily.white ColorFamily.navy ∧
      COLOR_HARMONY ColorFamily.white ColorFamily.navy < 0.86) := by
  with_unfolding_all decide

theorem list_len1_all_eq {α : Type} {l : List α} {x : α} (hlen : l.length = 1)
    (hall : ∀ a ∈ l, a = x) : l = [x] := by
  match l, hlen with
  | [a], _ =>
    rw [hall a (List.mem_singleton_self a)]

/-- C9 (amended): the white–navy entry is 0.95 (not a value beginning 0.85)
and the white–white entry is 0.6, so for the §8 scenario outfit — white
top, navy bottom, white shoe and the white accessory `ACC_001` — the
reported `color_harmony` is the average of these pairwise scores over all
six item pairs, in source pair order top–bottom, top–shoe, top–acc,
bottom–shoe, bottom–acc, shoe–acc: (0.95 + 0.6 + 0.6 + 0.95 + 0.95 + 0.6)
divided by 6.  `demoOutfit` is the actual scenario response outfit; its
items are pinned down through the loop invariant (base placement and the
singleton category pools of the scenario catalog). -/
theorem c9_white_navy_entries :
    COLOR_HARMONY ColorFamily.white ColorFamily.navy = 0.95 ∧
    COLOR_HARMONY ColorFamily.white ColorFamily.white = 0.6 ∧
    demoOutfit.score_breakdown.color_harmony = (0.95 + 0.6 + 0.6 + 0.95 + 0.95 + 0.6) / 6 := by
  obtain ⟨q, hok⟩ := @resp_outfit_ok demoCatalog demoRand 1 demoReq demoTop
    (by with_unfolding_all decide) demoOutfit
    (headD_mem dummyOutfit (List.length_pos.mp (by with_unfolding_all decide)))
  have hbc : (mkCtx demoCatalog demoRand demoReq.preferred_style demoReq.season demoTop).baseCategory
      = "tops" := by with_unfolding_all decide
  have htop : demoOutfit.top = demoTop := hok.base_top hbc
  have hbot : demoOutfit.bottom = demoBottom := by
    have hmem2 : demoOutfit.bottom ∈ eligiblePool demoCatalog "bottoms" :=
      hok.bottom_src (by rw [hbc]; decide)
    have hpool : eligiblePool demoCatalog "bottoms" = [demoBottom] := by
      with_unfolding_all decide
    rw [hpool] at hmem2
    exact List.mem_singleton.mp hmem2
  have hshoe : demoOutfit.footwear = demoShoe := by
    have hmem2 : demoOutfit.footwear ∈ eligiblePool demoCatalog "footwear" :=
      hok.shoe_src (by rw [hbc]; decide)
    have hpool : eligiblePool demoCatalog "footwear" = [demoShoe] := by
      with_unfolding_all decide
    rw [hpool] at hmem2
    exact List.mem_singleton.mp hmem2
  have hacc : demoOutfit.accessories = [demoAcc] := by
    have hlen : demoOutfit.accessories.length = 1 := by with_unfolding_all decide
    have hpool : eligiblePool demoCatalog "accessories" = [demoAcc] := by
      with_unfolding_all decide
    refine list_len1_all_eq hlen ?_
    intro a ha
    have hmem2 : a ∈ eligiblePool demoCatalog "accessories" := hok.acc_src a ha
    rw [hpool] at hmem2
    exact List.mem_singleton.mp hmem2
  refine ⟨by with_unfolding_all decide, by with_unfolding_all decide, ?_⟩
  calc demoOutfit.score_breakdown.color_harmony
      = (mkBreakdown (demoOutfit.top :: demoOutfit.bottom :: demoOutfit.footwear ::
          demoOutfit.accessories) demoReq.season).color_harmony :=
        congrArg ScoreBreakdown.color_harmony hok.bd_items
    _ = (0.95 + 0.6 + 0.6 + 0.95 + 0.95 + 0.6) / 6 := by
        rw [htop, hbot, hshoe, hacc]
        with_unfolding_all decide

/-- C10 counterexample: with `num_outfits = 0` and a resolvable base
product the engine can still return zero outfits — the default of 3 only
bounds the attempt loop, it does not guarantee success.  Here the catalog
has no bottoms or footwear, so no attempt completes. -/
theorem c10_counterexample :
    (getProductById c10Catalog "TOP_001").isSome = true ∧ c10Resp.outfits = [] := by
  with_unfolding_all decide

/-- C10 (amended): because 0 is falsy, `request.num_outfits || 3`
substitutes the default 3 for a requested count of 0, so the response is
identical to that of the same request asking for 3 outfits — a caller
cannot request an empty recommendation list through `num_outfits`, though
the response may still contain zero outfits when no valid outfit can be
assembled (see the counterexample). -/
theorem c10_zero_equals_three (catalog : List Product) (rand : ℕ → ℕ) (elapsedMs : ℚ)
    (request : RecommendationRequest) (h : request.num_outfits = some 0) :
    generateOutfitRecommendations catalog rand elapsedMs request =
      generateOutfitRecommendations catalog rand elapsedMs
        { request with num_outfits := some 3 } := by
  simp only [generateOutfitRecommendations, effectiveNumOutfits, h]

/-- Witness for the amended C10. -/
theorem c10_witness :
    generateOutfitRecommendations demoCatalog demoRand 1
      { base_product_id := "TOP_001", num_outfits := some 0 } =
    generateOutfitRecommendations demoCatalog demoRand 1
      { base_product_id := "TOP_001", num_outfits := some 3 } :=
  c10_zero_equals_three demoCatalog demoRand 1
    { base_product_id := "TOP_001", num_outfits := some 0 } rfl

end CultureCircle
